import Mathlib

/-!
Verification of the markuplint rule-evaluation and attribute-value
validation engine against its specification.

Shallow embedding of:
* `packages/@markuplint/rules/src/attr-check.ts` — `attrCheck`, `valueCheck`,
  `includesEnum`;
* the `verify` procedure of the class-naming rule;
* the `verify` procedure of the palpable-content rule.

The localization collaborator (`Translator t` from `@markuplint/i18n`) is out
of scope of the core; we embed it initially: a call `t(template, ...args)` is
modelled as the information-preserving message tree `Msg.t1/t2/t3 template
args`, so two calls are equal exactly when template and arguments agree.
The primitive value checkers live in `primitive-check.ts`, which is imported
by `attr-check.ts` but is not part of the sources at hand; those definitions
are modelled from the wording of specification §4.1 and are marked as such.
-/

namespace Markuplint

/-- Message tree: the initial model of the localized strings built by the
translator `t`. `t1`/`t2`/`t3` are the one-, two- and three-argument template
calls appearing in the sources; `s` lifts a literal string argument, `n` a
numeric argument, `list` the array form of `t` applied to a string list. -/
inductive Msg where
  | s : String → Msg
  | n : Int → Msg
  | list : List String → Msg
  | t1 : String → Msg → Msg
  | t2 : String → Msg → Msg → Msg
  | t3 : String → Msg → Msg → Msg → Msg
deriving DecidableEq, Repr

/-- Values of the `invalidType` field of an `Invalid` record in attr-check.ts. -/
inductive InvalidType where
  | nonExistent
  | invalidValue
deriving DecidableEq, Repr

/-- The `Invalid` record returned by `attrCheck`. -/
structure Invalid where
  invalidType : InvalidType
  message : Msg
deriving DecidableEq, Repr

/-- Embeds `spec.type` of an `AttrSpec`: either an object carrying an `enum` member
(a closed list of literal strings) or a named semantic type tag. -/
inductive SpecType where
  | enumList : List String → SpecType
  | tag : String → SpecType
deriving DecidableEq, Repr

/-- The slice of `Attribute` (from `@markuplint/ml-spec`) that `attrCheck`
reads: its `type` field. -/
structure AttrSpec where
  type : SpecType
deriving DecidableEq, Repr

/-- JavaScript line terminators, which `.` in a regular expression does not
match. -/
def isLineTerminator (c : Char) : Bool :=
  c = '\n' || c = '\r' || c = Char.ofNat 0x2028 || c = Char.ofNat 0x2029

/-- Boolean prefix test on character lists (kept executable down to the
kernel, unlike `String.isPrefixOf`). -/
def isCharPrefixOf : List Char → List Char → Bool
  | [], _ => true
  | _ :: _, [] => false
  | c :: cs, d :: ds => c = d && isCharPrefixOf cs ds

/-- Embeds the regular expression `/^data-.+$/` used by `attrCheck`:
the name is `data-` followed by at least one character, none of which is a
line terminator. -/
def dataAttrRe (name : String) : Bool :=
  isCharPrefixOf "data-".data name.data &&
  (name.data.drop 5).length > 0 &&
  (name.data.drop 5).all (fun c => !isLineTerminator c)

/-- Embeds the regular expression `/^aria-.+$|^role$/` used by `attrCheck`. -/
def ariaRoleRe (name : String) : Bool :=
  (isCharPrefixOf "aria-".data name.data &&
   (name.data.drop 5).length > 0 &&
   (name.data.drop 5).all (fun c => !isLineTerminator c)) ||
  name = "role"

/-! ### Primitive value checkers

These live in `primitive-check.ts`, imported by attr-check.ts but not among
the sources; each is modelled from the contract given in specification §4.1. -/

/-- Value of a list of decimal digit characters. -/
def digitsToNat (cs : List Char) : Nat :=
  cs.foldl (fun a c => a * 10 + (c.toNat - '0'.toNat)) 0

/-- Splits a character list into its maximal leading run of decimal digits
and the remainder. -/
def takeDigits : List Char → List Char × List Char
  | [] => ([], [])
  | c :: cs =>
    if c.isDigit then
      let (d, r) := takeDigits cs
      (c :: d, r)
    else ([], c :: cs)

/-- Splits an optional leading sign from a character list, returning
`(isNegative, rest)`. -/
def splitSign : List Char → Bool × List Char
  | [] => (false, [])
  | c :: cs =>
    if c = '-' then (true, cs)
    else if c = '+' then (false, cs)
    else (false, c :: cs)

/-- Modelled from the spec: the base-10 numeric reading shared by the
primitive checkers (`floatCheck`, `range`) of `primitive-check.ts`, which is
not among the sources. Accepts an optional sign, an integer part, an optional
fractional part and an optional exponent (at least one digit of mantissa
required; no extraneous characters); unparseable input yields `none`. The
number is represented exactly as a pair `(mantissa, scale)` standing for
`mantissa / 10 ^ scale`. -/
def parseDec (str : String) : Option (Int × Nat) :=
  let (sgn, rest) := splitSign str.data
  let (ip, rest1) := takeDigits rest
  let (fp, rest2) :=
    match rest1 with
    | [] => (([] : List Char), ([] : List Char))
    | c :: cs => if c = '.' then takeDigits cs else ([], c :: cs)
  let (expOk, expVal, rest3) :=
    match rest2 with
    | [] => (true, (0 : Int), ([] : List Char))
    | c :: cs =>
      if c = 'e' || c = 'E' then
        let (esgn, cs1) := splitSign cs
        let (ed, r) := takeDigits cs1
        if ed = [] then (false, (0 : Int), c :: cs)
        else (true, (if esgn then -(digitsToNat ed : Int) else (digitsToNat ed : Int)), r)
      else (true, (0 : Int), c :: cs)
  if (ip = [] && fp = []) || rest3 ≠ [] || !expOk then none
  else
    let mant : Int := ((digitsToNat ip * 10 ^ fp.length + digitsToNat fp : Nat) : Int)
    let mant := if sgn then -mant else mant
    some (if 0 ≤ expVal then (mant * (10 : Int) ^ expVal.toNat, fp.length)
          else (mant, fp.length + (-expVal).toNat))

/-- Modelled from the spec: `intCheck` of `primitive-check.ts` (not among
the sources): true iff the string parses as an optionally-signed base-10
integer with no extraneous characters. -/
def intCheck (value : String) : Bool :=
  let (_, ds) := splitSign value.data
  ds ≠ [] && ds.all Char.isDigit

/-- Modelled from the spec: the integer value of a string accepted by
`intCheck`; stands for the JavaScript `parseInt` on such strings (used by the
`TabIndex` branch only under an `intCheck` guard). -/
def parseIntStr (value : String) : Int :=
  let (neg, ds) := splitSign value.data
  if neg then -(digitsToNat ds : Int) else (digitsToNat ds : Int)

/-- Modelled from the spec: `uintCheck` of `primitive-check.ts` (not among
the sources): true iff integer and ≥ 0. -/
def uintCheck (value : String) : Bool :=
  intCheck value && decide (0 ≤ parseIntStr value)

/-- Modelled from the spec: `nonZeroUintCheck` of `primitive-check.ts` (not
among the sources): true iff integer and > 0. -/
def nonZeroUintCheck (value : String) : Bool :=
  intCheck value && decide (0 < parseIntStr value)

/-- Modelled from the spec: `floatCheck` of `primitive-check.ts` (not among
the sources): true iff the string parses as a base-10 floating point literal
(optional sign, optional fractional part, optional exponent). -/
def floatCheck (value : String) : Bool :=
  (parseDec value).isSome

/-- Modelled from the spec: `range` of `primitive-check.ts` (not among the
sources): true iff the string is a numeric value lying in `[min, max]`
inclusive; unparseable input yields `false`. The fraction comparison is by
cross-multiplication with the positive denominator `10 ^ scale`. -/
def range (value : String) (lo hi : Int) : Bool :=
  match parseDec value with
  | some (m, s) => lo * (10 : Int) ^ s ≤ m && m ≤ hi * (10 : Int) ^ s
  | none => false

/-- The `{ num, unit }` pair produced by `splitUnit`. -/
structure NumUnit where
  num : String
  unit : String
deriving DecidableEq, Repr

/-- Modelled from the spec: `splitUnit` of `primitive-check.ts` (not among
the sources): decomposes a string into `{ num, unit }` where `unit` is the
longest trailing non-numeric (non-digit) suffix. -/
def splitUnit (value : String) : NumUnit :=
  let rev := value.data.reverse
  let u := rev.takeWhile (fun c => !c.isDigit)
  let nm := rev.drop u.length
  ⟨String.mk nm.reverse, String.mk u.reverse⟩

/-- Modelled from the spec: `numberCheckWithUnit` of `primitive-check.ts`
(not among the sources): true iff the string decomposes into a valid
float/int part and a unit that is a member of `allowedUnits`. -/
def numberCheckWithUnit (value : String) (allowedUnits : List String) : Bool :=
  let nu := splitUnit value
  floatCheck nu.num && allowedUnits.contains nu.unit

/-- Embeds `includesEnum` of attr-check.ts: valid iff the lower-cased value
is a member of the enum list; otherwise the "expects either …" message. -/
def includesEnum (name value : String) (enumValues : List String) : Option Msg :=
  if enumValues.contains (String.mk (value.data.map Char.toLower)) then none
  else
    some (Msg.t2 "{0} expects {1:c}"
      (Msg.t2 "the \"{0}\" {1}" (.s name) (.s "attribute"))
      (Msg.t1 "either {0}" (.list enumValues)))

/-- Embeds `valueCheck` of attr-check.ts: `some msg` models a returned
message string, `none` models the returned `false` (valid). The branch chain
follows the source in order; branches marked TODO there return `false`. -/
def valueCheck (name value : String) (spec : AttrSpec) : Option Msg :=
  match spec.type with
  | .enumList es =>
    -- `typeof spec.type !== 'string' && 'enum' in spec.type`
    includesEnum name value es
  | .tag ty =>
    let t_theNameAttribute := Msg.t2 "the \"{0}\" {1}" (.s name) (.s "attribute")
    if ty = "NonEmptyString" ∧ value = "" then
      some (Msg.t2 "{0} must not be {1}"
        (Msg.t2 "{0} of {1}" (Msg.t1 "the {0}" (.s "value")) t_theNameAttribute)
        (.s "empty string"))
    else if ty = "Boolean" then none         -- valid because the attribute exists
    else if ty = "Function" then none        -- TODO
    else if ty = "Date" then none            -- TODO
    else if ty = "Int" then
      if intCheck value then none
      else some (Msg.t2 "{0} expects {1}" t_theNameAttribute (.s "integer"))
    else if ty = "Uint" then
      if uintCheck value then none
      else some (Msg.t2 "{0} expects {1}" t_theNameAttribute (.s "non-negative integer"))
    else if ty = "Float" then
      if floatCheck value then none
      else some (Msg.t2 "{0} expects {1}" t_theNameAttribute (.s "floating-point number"))
    else if ty = "NonZeroUint" then
      if nonZeroUintCheck value then none
      else some (Msg.t2 "{0} expects {1}" t_theNameAttribute
        (Msg.t2 "{0} greater than {1}" (.s "floating-point number") (.s "zero")))
    else if ty = "ZeroToOne" then
      if range value 0 1 then none
      else some (Msg.t2 "{0} expects {1:c}" t_theNameAttribute
        (Msg.t2 "in the range between {0} and {1}" (.s "zero") (.s "one")))
    else if ty = "AcceptList" then none      -- TODO
    else if ty = "AutoComplete" then none    -- TODO
    else if ty = "BCP47" then none           -- TODO
    else if ty = "Color" then none           -- TODO
    else if ty = "ColSpan" then
      if intCheck value && range value 0 1000 then none
      else some (Msg.t2 "{0} expects {1:c}" t_theNameAttribute
        (Msg.t2 "{0:c} and {1:c}"
          (Msg.t2 "{0} greater than {1}" (.s "non-negative integer") (.s "zero"))
          (Msg.t1 "less than or equal to {0}" (.n 1000))))
    else if ty = "Coords" then none          -- TODO
    else if ty = "Crossorigin" then none     -- TODO
    else if ty = "DateTime" then none        -- TODO
    else if ty = "Destination" then none     -- TODO
    else if ty = "DOMID" then none           -- TODO
    else if ty = "DOMIDList" then none       -- TODO
    else if ty = "IRI" then none             -- TODO
    else if ty = "ItemType" then none        -- TODO
    else if ty = "LinkSizes" then none       -- TODO
    else if ty = "LinkType" then none        -- TODO
    else if ty = "LinkTypeList" then none    -- TODO
    else if ty = "MediaQuery" then none      -- TODO
    else if ty = "MediaQueryList" then none  -- TODO
    else if ty = "MIMEType" then none        -- TODO
    else if ty = "ReferrerPolicy" then
      includesEnum name value
        ["", "no-referrer", "no-referrer-when-downgrade", "same-origin", "origin",
         "strict-origin", "origin-when-cross-origin", "strict-origin-when-cross-origin",
         "unsafe-url"]
    else if ty = "RowSpan" then
      if intCheck value && range value 0 65534 then none
      else some (Msg.t2 "{0} expects {1:c}" t_theNameAttribute
        (Msg.t2 "{0:c} and {1:c}"
          (Msg.t2 "{0} greater than {1}" (.s "non-negative integer") (.s "zero"))
          (Msg.t1 "less than or equal to {0}" (.n 65534))))
    else if ty = "SourceSizeList" then none  -- TODO
    else if ty = "SrcSet" then none          -- TODO
    else if ty = "TabIndex" then
      if intCheck value then
        if -1 ≤ parseIntStr value then none
        else if -1 > parseIntStr value then
          some (Msg.t3 "{0} behaves the same as {1} if {2}" t_theNameAttribute (.s "-1")
            (Msg.t1 "less than {0}" (.s "-1")))
        else
          some (Msg.t2 "{0} expects {1:c}" t_theNameAttribute
            (Msg.t1 "either {0}" (.list ["-1", "zero", "non-negative integer"])))
      else
        some (Msg.t2 "{0} expects {1:c}" t_theNameAttribute
          (Msg.t1 "either {0}" (.list ["-1", "zero", "non-negative integer"])))
    else if ty = "Target" then none          -- TODO
    else if ty = "URL" then none             -- TODO
    else if ty = "URLHash" then
      if value.data.head? = some '#' then none
      else some (Msg.t2 "{0} expects {1:c}" t_theNameAttribute
        (Msg.t1 "valid {0}" (.s "hash-name reference")))
    else if ty = "URLList" then none         -- TODO
    else if ty = "CSSAngle" then
      if numberCheckWithUnit value ["deg", "grad", "rad", "turn"] then none
      else some (Msg.t2 "{0} expects {1}" t_theNameAttribute (.s "angle"))
    else if ty = "CSSBlendMode" then
      includesEnum name value
        ["normal", "multiply", "screen", "overlay", "darken", "lighten", "color-dodge",
         "color-burn", "hard-light", "soft-light", "difference", "exclusion", "hue",
         "saturation", "color", "luminosity"]
    else if ty = "CSSClipPath" then none     -- TODO
    else if ty = "CSSCustomIdent" then none  -- TODO
    else if ty = "CSSDisplay" then none      -- TODO
    else if ty = "CSSFilter" then none       -- TODO
    else if ty = "CSSFontFamily" then none   -- TODO
    else if ty = "CSSFontSize" then none     -- TODO
    else if ty = "CSSFontVariant" then none  -- TODO
    else if ty = "CSSFontWeight" then none   -- TODO
    else if ty = "CSSMask" then none         -- TODO
    else if ty = "CSSOpacity" then
      let nu := splitUnit value
      if nu.unit = "%" then
        if range nu.num 0 100 then none
        else some (Msg.t2 "{0} expects {1:c}" t_theNameAttribute
          (Msg.t2 "{0} as {1}" (Msg.t2 "{0} to {1}" (.s "0%") (.s "100%"))
            (.s "alpha channel value")))
      else
        if range nu.num 0 1 then none
        else some (Msg.t2 "{0} expects {1:c}" t_theNameAttribute
          (Msg.t2 "{0} as {1}" (Msg.t2 "{0} to {1}" (.s "0") (.s "1"))
            (.s "alpha channel value")))
    else if ty = "CSSTextDecoration" then none    -- TODO
    else if ty = "CSSTransformList" then none     -- TODO
    else if ty = "CSSTransformOrigin" then none   -- TODO
    else if ty = "CSSURL" then none               -- TODO
    else if ty = "SVGAnimatableValue" then none   -- TODO
    else if ty = "SVGBeginValueList" then none    -- TODO
    else if ty = "SVGClockValue" then none        -- TODO
    else if ty = "SVGColorMatrix" then none       -- TODO
    else if ty = "SVGDashArray" then none         -- TODO
    else if ty = "SVGEndValueList" then none      -- TODO
    else if ty = "SVGFilterPrimitiveReference" then none  -- TODO
    else if ty = "SVGKernelMatrix" then none      -- TODO
    else if ty = "SVGKeyPoints" then none         -- TODO
    else if ty = "SVGKeySplines" then none        -- TODO
    else if ty = "SVGKeyTimes" then none          -- TODO
    else if ty = "SVGLanguageTags" then none      -- TODO
    else if ty = "SVGLength" then none            -- TODO
    else if ty = "SVGLengthList" then none        -- TODO
    else if ty = "SVGNumberList" then none        -- TODO
    else if ty = "SVGNumberOptionalNumber" then none  -- TODO
    else if ty = "SVGOrigin" then none            -- TODO
    else if ty = "SVGPaint" then none             -- TODO
    else if ty = "SVGPathCommands" then none      -- TODO
    else if ty = "SVGPercentage" then none        -- TODO
    else if ty = "SVGPercentageList" then none    -- TODO
    else if ty = "SVGPoints" then none            -- TODO
    else if ty = "SVGPreserveAspectRatio" then none  -- TODO
    else if ty = "SVGViewBox" then none           -- TODO
    else none

/-- Embeds `attrCheck` of attr-check.ts. `none` models the returned `false`
(valid); the two leading guards are the early returns of the source for the
`data-*` and ARIA/role exemptions in non-custom-rule mode. -/
def attrCheck (name value : String) (isCustomRule : Bool) (spec : Option AttrSpec) :
    Option Invalid :=
  if !isCustomRule && dataAttrRe name then
    -- ignore checking because a "data-*" attribute is any type
    none
  else if !isCustomRule && ariaRoleRe name then
    -- ignore checking because ARIA attributes are checked by another rule
    none
  else
    match spec with
    | none =>
      some ⟨.nonExistent,
        Msg.t2 "{0} is {1}" (Msg.t2 "the \"{0}\" {1}" (.s name) (.s "attribute"))
          (.s "disallow")⟩
    | some sp =>
      match valueCheck name value sp with
      | some invalid => some ⟨.invalidValue, invalid⟩
      | none => none

/-! ### The `verify` procedure of the class-naming rule

Embeds the rule whose `verify` walks `Element` nodes, splits each non-dynamic
`class` attribute token into class names and reports every class name that
matches none of the configured patterns. The pattern matcher `match` (from
`../helpers`) is not among the sources, so `verify` is parameterized over it;
the claims settled here hold for every matcher. -/

/-- Embeds the configured rule value `Value = string | string[] | null`. -/
inductive RuleValue where
  | str : String → RuleValue
  | arr : List String → RuleValue
  | null : RuleValue
deriving DecidableEq, Repr

/-- JavaScript falsiness of `el.rule.value` (the `if (!el.rule.value) return`
guard): `null` and the empty string are falsy; any array is truthy. -/
def RuleValue.isFalsy : RuleValue → Bool
  | .null => true
  | .str "" => true
  | _ => false

/-- Modelled from the spec: `toNoEmptyStringArrayFromStringOrArray` from
`@markuplint/shared` (imported by the rule but not among the sources):
normalizes `string | string[] | null` to an array of non-empty strings. -/
def toNoEmptyStringArrayFromStringOrArray : RuleValue → List String
  | .str s => if s = "" then [] else [s]
  | .arr a => a.filter (· ≠ "")
  | .null => []

/-- The location data of an attribute value node
(`attr.valueNode.{startLine,startCol,raw}`). -/
structure ValueNode where
  startLine : Nat
  startCol : Nat
  raw : String
deriving DecidableEq, Repr

/-- The slice of an `AttributeToken` the rule reads: the dynamic-value flag,
the textual value, and the optional value node. -/
structure AttributeToken where
  isDynamicValue : Bool
  value : String
  valueNode : Option ValueNode
deriving DecidableEq, Repr

/-- The slice of an `Element` the class-naming rule reads: its configured
rule value and the class attribute tokens returned by `getAttributeToken`. -/
structure CElement where
  ruleValue : RuleValue
  classTokens : List AttributeToken
deriving DecidableEq, Repr

/-- One `report({scope, message, line, col, raw})` call made by the rule. -/
structure Report where
  scope : AttributeToken
  message : Msg
  line : Option Nat
  col : Option Nat
  raw : Option String
deriving DecidableEq, Repr

/-- Accumulator-passing split of a character list into its maximal
non-whitespace runs. -/
def splitWsAux : List Char → List Char → List String
  | [], acc => if acc = [] then [] else [String.mk acc.reverse]
  | c :: cs, acc =>
    if c.isWhitespace then
      if acc = [] then splitWsAux cs []
      else String.mk acc.reverse :: splitWsAux cs []
    else splitWsAux cs (c :: acc)

/-- The class list of one attribute token:
`attr.value.split(/\s+/g).map(c => c.trim()).filter(c => c)`.
Splitting on whitespace runs, trimming each piece (a no-op after such a
split) and dropping empty pieces yields exactly the maximal non-whitespace
runs of the value. -/
def classListOf (value : String) : List String :=
  splitWsAux value.data []

/-- Embeds the per-element body of the class-naming rule `verify`:
the reports emitted while visiting `el`, in order. -/
def verifyElement (matchFn : String → String → Bool) (el : CElement) : List Report :=
  if el.ruleValue.isFalsy then []
  else
    let classPatterns := (toNoEmptyStringArrayFromStringOrArray el.ruleValue).filter (· ≠ "")
    el.classTokens.flatMap fun attr =>
      if attr.isDynamicValue then []
      else
        let classAttr := attr.valueNode
        (classListOf attr.value).flatMap fun className =>
          if !(classPatterns.any fun pattern => matchFn className pattern) then
            [{ scope := attr
               message := Msg.t2 "{0} is unmatched with the below patterns: {1}"
                 (Msg.t2 "the \"{0*}\" {1}" (.s className) (.s "class name"))
                 (.s ("\"" ++ String.intercalate "\", \"" classPatterns ++ "\""))
               line := classAttr.map (·.startLine)
               col := classAttr.map (·.startCol)
               raw := classAttr.map (·.raw) }]
          else []

/-- Embeds the class-naming rule `verify` as a whole: the walk over all `Element`
nodes visits them in document order, so the emitted reports are the
concatenation of the per-element reports. -/
def classNamingVerify (matchFn : String → String → Bool) (doc : List CElement) :
    List Report :=
  doc.flatMap (verifyElement matchFn)

/-! ### The `verify` procedure of the palpable-content rule

`isPalpableElement` and `isVoidElement` come from `@markuplint/ml-spec`
(external collaborators), so `verify` is parameterized over them. -/

/-- The slice of a child node the rule reads: `node.is(node.TEXT_NODE)` and
`node.isWhitespace()`. -/
structure PNode where
  isTextNode : Bool
  isWhitespace : Bool
deriving DecidableEq, Repr

/-- The slice of an `Element` the palpable-content rule reads: the
`ignoreIfAriaBusy` option, the aria-busy attribute value from `getAttribute`
(`none` models `null`), and the child node list. -/
structure PElement where
  ignoreIfAriaBusy : Bool
  ariaBusy : Option String
  childNodes : List PNode
deriving DecidableEq, Repr

/-- One report emitted by the palpable-content rule. -/
structure PReport where
  scope : PElement
  message : Msg
deriving DecidableEq, Repr

/-- Embeds the per-element body of the palpable-content rule `verify`. -/
def palpableVerifyElement (isPalpableElement isVoidElement : PElement → Bool)
    (el : PElement) : List PReport :=
  if !isPalpableElement el then []
  else if isVoidElement el then []
  else if el.ignoreIfAriaBusy && el.ariaBusy = some "true" then []
  else
    let isEmpty := el.childNodes.all fun node => node.isTextNode && node.isWhitespace
    if isEmpty then
      [{ scope := el
         message := Msg.t2 "{0} should not {1}" (Msg.t1 "the {0}" (.s "element"))
           (.s "empty") }]
    else []

/-! ### Theorems -/

/-- When the two leading exemption guards do not fire, `attrCheck` with a
supplied spec is exactly `valueCheck` wrapped as an `invalid-value` verdict. -/
theorem attrCheck_eq_of_not_exempt (name value : String) (isCustomRule : Bool)
    (sp : AttrSpec)
    (h1 : (!isCustomRule && dataAttrRe name) = false)
    (h2 : (!isCustomRule && ariaRoleRe name) = false) :
    attrCheck name value isCustomRule (some sp) =
      (valueCheck name value sp).map fun m => ⟨.invalidValue, m⟩ := by
  simp only [attrCheck, h1, h2, Bool.false_eq_true, if_false]
  cases valueCheck name value sp <;> rfl

/-- Claim C1: for a non-exempted attribute name, `attrCheck` returns an
`Invalid` with `invalidType` equal to `non-existent` if and only if no
`AttributeSpec` was supplied. -/
theorem attrCheck_nonExistent_iff_no_spec (name value : String) (isCustomRule : Bool)
    (spec : Option AttrSpec)
    (h1 : (!isCustomRule && dataAttrRe name) = false)
    (h2 : (!isCustomRule && ariaRoleRe name) = false) :
    (attrCheck name value isCustomRule spec).map Invalid.invalidType =
      some InvalidType.nonExistent ↔ spec = none := by
  cases spec with
  | none => simp [attrCheck, h1, h2]
  | some sp =>
    rw [attrCheck_eq_of_not_exempt name value isCustomRule sp h1 h2]
    cases valueCheck name value sp <;> simp

/-- Witness for C1 at a concrete non-exempted name with no spec. -/
theorem attrCheck_nonExistent_iff_no_spec_witness :
    (attrCheck "foo" "bar" false none).map Invalid.invalidType =
      some InvalidType.nonExistent :=
  (attrCheck_nonExistent_iff_no_spec "foo" "bar" false none (by decide) (by decide)).mpr rfl

/-- Claim C2: in non-custom-rule mode, a name matching the `data-*` or
ARIA/role pattern is exempt: `attrCheck` returns valid for every value and
every optional spec. -/
theorem attrCheck_exempt_names_valid (name value : String) (spec : Option AttrSpec)
    (h : (dataAttrRe name || ariaRoleRe name) = true) :
    attrCheck name value false spec = none := by
  rw [Bool.or_eq_true] at h
  rcases h with hd | ha
  · simp [attrCheck, hd]
  · by_cases hd : dataAttrRe name <;> simp [attrCheck, hd, ha]

/-- Witness for C2 at a concrete `data-*` name. -/
theorem attrCheck_exempt_names_valid_witness :
    attrCheck "data-x" "anything" false none = none :=
  attrCheck_exempt_names_valid "data-x" "anything" none (by decide)

/-- Claim C8: `attrCheck` is total and its result is exactly one of valid
(`none`, modelling `false`) or an `Invalid` record whose `invalidType` is
`non-existent` or `invalid-value`. -/
theorem attrCheck_total_verdict (name value : String) (isCustomRule : Bool)
    (spec : Option AttrSpec) :
    attrCheck name value isCustomRule spec = none ∨
    ∃ inv, attrCheck name value isCustomRule spec = some inv ∧
      (inv.invalidType = .nonExistent ∨ inv.invalidType = .invalidValue) := by
  cases h : attrCheck name value isCustomRule spec with
  | none => exact Or.inl rfl
  | some inv =>
    refine Or.inr ⟨inv, rfl, ?_⟩
    obtain ⟨it, m⟩ := inv
    cases it
    · exact Or.inl rfl
    · exact Or.inr rfl

/-- Claim C9: the name consisting of exactly `data-` does not match the
`data-*` exemption pattern (which requires at least one character after the
hyphen), so with no spec `attrCheck` returns the `non-existent` verdict
rather than valid. -/
theorem attrCheck_data_hyphen_nonExistent :
    dataAttrRe "data-" = false ∧
    ∀ value : String, attrCheck "data-" value false none =
      some ⟨.nonExistent,
        Msg.t2 "{0} is {1}" (Msg.t2 "the \"{0}\" {1}" (.s "data-") (.s "attribute"))
          (.s "disallow")⟩ :=
  ⟨rfl, fun _ => rfl⟩

/-- The spec-type tags whose `valueCheck` branch can actually reject a
value; every other tag (the TODO-marked ones and any unhandled tag) is
accepted unconditionally. -/
def implementedCheckTags : List String :=
  ["NonEmptyString", "Int", "Uint", "Float", "NonZeroUint", "ZeroToOne", "ColSpan",
   "ReferrerPolicy", "RowSpan", "TabIndex", "URLHash", "CSSAngle", "CSSBlendMode",
   "CSSOpacity"]

/-- Claim C4: for every named spec type outside the implemented checks (all
the TODO-marked types and every tag not handled by any branch), `attrCheck`
returns valid for every name, value and custom-rule flag. -/
theorem attrCheck_unimplemented_types_valid (name value : String) (isCustomRule : Bool)
    (ty : String) (h : ty ∉ implementedCheckTags) :
    attrCheck name value isCustomRule (some ⟨.tag ty⟩) = none := by
  simp only [implementedCheckTags, List.mem_cons, List.not_mem_nil, or_false,
    not_or] at h
  obtain ⟨h1, h2, h3, h4, h5, h6, h7, h8, h9, h10, h11, h12, h13, h14⟩ := h
  have hv : valueCheck name value ⟨.tag ty⟩ = none := by
    simp [valueCheck, h1, h2, h3, h4, h5, h6, h7, h8, h9, h10, h11, h12, h13, h14]
  simp [attrCheck, hv]

/-- Witness for C4 at the TODO-marked type `Boolean`. -/
theorem attrCheck_unimplemented_types_valid_witness :
    ("Boolean" : String) ∉ implementedCheckTags ∧
    attrCheck "x" "anything" false (some ⟨.tag "Boolean"⟩) = none :=
  ⟨by decide, attrCheck_unimplemented_types_valid "x" "anything" false "Boolean" (by decide)⟩

/-- The distinct `behaves the same as -1` message of the `TabIndex` branch. -/
def tabIndexBehavesMsg (name : String) : Msg :=
  Msg.t3 "{0} behaves the same as {1} if {2}"
    (Msg.t2 "the \"{0}\" {1}" (.s name) (.s "attribute")) (.s "-1")
    (Msg.t1 "less than {0}" (.s "-1"))

/-- The `expects either -1, zero, non-negative integer` message of the
`TabIndex` branch. -/
def tabIndexExpectsMsg (name : String) : Msg :=
  Msg.t2 "{0} expects {1:c}" (Msg.t2 "the \"{0}\" {1}" (.s name) (.s "attribute"))
    (Msg.t1 "either {0}" (.list ["-1", "zero", "non-negative integer"]))

/-- Claim C6: for a `TabIndex` spec (and a non-exempted name), `attrCheck`
accepts exactly the integer values ≥ −1; an integer strictly below −1 is
rejected with the distinct `behaves the same as -1` message; a non-integer
is rejected with the `expects either` message; and the two messages differ. -/
theorem tabIndex_check (name value : String) (isCustomRule : Bool)
    (h1 : (!isCustomRule && dataAttrRe name) = false)
    (h2 : (!isCustomRule && ariaRoleRe name) = false) :
    (attrCheck name value isCustomRule (some ⟨.tag "TabIndex"⟩) = none ↔
      intCheck value = true ∧ -1 ≤ parseIntStr value) ∧
    (intCheck value = true → parseIntStr value < -1 →
      attrCheck name value isCustomRule (some ⟨.tag "TabIndex"⟩) =
        some ⟨.invalidValue, tabIndexBehavesMsg name⟩) ∧
    (intCheck value = false →
      attrCheck name value isCustomRule (some ⟨.tag "TabIndex"⟩) =
        some ⟨.invalidValue, tabIndexExpectsMsg name⟩) ∧
    tabIndexBehavesMsg name ≠ tabIndexExpectsMsg name := by
  rw [attrCheck_eq_of_not_exempt name value isCustomRule _ h1 h2]
  have hv : valueCheck name value ⟨.tag "TabIndex"⟩ =
      if intCheck value then
        (if -1 ≤ parseIntStr value then none
         else if -1 > parseIntStr value then some (tabIndexBehavesMsg name)
         else some (tabIndexExpectsMsg name))
      else some (tabIndexExpectsMsg name) := by
    simp [valueCheck, tabIndexBehavesMsg, tabIndexExpectsMsg]
  rw [hv]
  refine ⟨?_, ?_, ?_, by simp [tabIndexBehavesMsg, tabIndexExpectsMsg]⟩
  · cases hic : intCheck value with
    | false => simp [hic]
    | true =>
      by_cases hle : -1 ≤ parseIntStr value
      · simp [hle]
      · simp [hle, not_le.mp hle]
  · intro hic hlt
    have hle : ¬(-1 ≤ parseIntStr value) := not_le.mpr hlt
    simp [hic, hle, hlt]
  · intro hic
    simp [hic]

/-- Witness for C6: `-2` is rejected with the distinct message and `-1` is
accepted. -/
theorem tabIndex_check_witness :
    attrCheck "tabindex" "-2" false (some ⟨.tag "TabIndex"⟩) =
      some ⟨.invalidValue, tabIndexBehavesMsg "tabindex"⟩ ∧
    attrCheck "tabindex" "-1" false (some ⟨.tag "TabIndex"⟩) = none := by
  constructor
  · exact (tabIndex_check "tabindex" "-2" false (by decide) (by decide)).2.1
      (by decide) (by decide)
  · exact (tabIndex_check "tabindex" "-1" false (by decide) (by decide)).1.mpr
      (by decide)

/-- The digit value of the empty list. -/
theorem digitsToNat_nil : digitsToNat [] = 0 := rfl

/-- On an all-digit list, `takeDigits` consumes the list whole. -/
theorem takeDigits_all (cs : List Char) (h : cs.all Char.isDigit = true) :
    takeDigits cs = (cs, []) := by
  induction cs with
  | nil => rfl
  | cons c cs ih =>
    rw [List.all_cons, Bool.and_eq_true] at h
    simp [takeDigits, h.1, ih h.2]

/-- A string accepted by `intCheck` is read by `parseDec` as exactly its
`parseIntStr` integer value (at scale 0). -/
theorem parseDec_of_intCheck (value : String) (h : intCheck value = true) :
    parseDec value = some (parseIntStr value, 0) := by
  unfold intCheck at h
  unfold parseDec parseIntStr
  rcases hs : splitSign value.data with ⟨neg, ds⟩
  simp only [Bool.and_eq_true, decide_eq_true_iff] at h
  obtain ⟨hne, hall⟩ := h
  rw [hs] at hne hall
  cases neg <;> simp [takeDigits_all ds hall, hne, digitsToNat_nil]

/-- The `expects non-negative integer … less than or equal to 1000` message
of the `ColSpan` branch. -/
def colSpanExpectsMsg (name : String) : Msg :=
  Msg.t2 "{0} expects {1:c}" (Msg.t2 "the \"{0}\" {1}" (.s name) (.s "attribute"))
    (Msg.t2 "{0:c} and {1:c}"
      (Msg.t2 "{0} greater than {1}" (.s "non-negative integer") (.s "zero"))
      (Msg.t1 "less than or equal to {0}" (.n 1000)))

/-- Claim C7: for a `ColSpan` spec (and a non-exempted name), `attrCheck`
accepts a value exactly when it parses as an integer lying in `[0, 1000]`. -/
theorem colSpan_check (name value : String) (isCustomRule : Bool)
    (h1 : (!isCustomRule && dataAttrRe name) = false)
    (h2 : (!isCustomRule && ariaRoleRe name) = false) :
    attrCheck name value isCustomRule (some ⟨.tag "ColSpan"⟩) = none ↔
      intCheck value = true ∧ 0 ≤ parseIntStr value ∧ parseIntStr value ≤ 1000 := by
  rw [attrCheck_eq_of_not_exempt name value isCustomRule _ h1 h2]
  have hv : valueCheck name value ⟨.tag "ColSpan"⟩ =
      if intCheck value && range value 0 1000 then none
      else some (colSpanExpectsMsg name) := by
    simp [valueCheck, colSpanExpectsMsg]
  rw [hv]
  cases hic : intCheck value with
  | false => simp [hic]
  | true =>
    have hr : range value 0 1000 = true ↔
        0 ≤ parseIntStr value ∧ parseIntStr value ≤ 1000 := by
      rw [range, parseDec_of_intCheck value hic]
      simp
    cases hrange : range value 0 1000 with
    | true => simp [hic, hrange, hr.mp hrange]
    | false =>
      have hno : ¬(0 ≤ parseIntStr value ∧ parseIntStr value ≤ 1000) := by
        intro hc
        rw [hr.mpr hc] at hrange
        exact Bool.noConfusion hrange
      simp [hic, hrange, hno]

/-- Witness for C7: `1000` is accepted and `1001` is rejected. -/
theorem colSpan_check_witness :
    attrCheck "colspan" "1000" false (some ⟨.tag "ColSpan"⟩) = none ∧
    ¬ attrCheck "colspan" "1001" false (some ⟨.tag "ColSpan"⟩) = none := by
  constructor
  · exact (colSpan_check "colspan" "1000" false (by decide) (by decide)).mpr (by decide)
  · intro hcontra
    have h := (colSpan_check "colspan" "1001" false (by decide) (by decide)).mp hcontra
    revert h
    decide

/-- The `0% to 100% as alpha channel value` message of the `CSSOpacity`
branch. -/
def cssOpacityPercentMsg (name : String) : Msg :=
  Msg.t2 "{0} expects {1:c}" (Msg.t2 "the \"{0}\" {1}" (.s name) (.s "attribute"))
    (Msg.t2 "{0} as {1}" (Msg.t2 "{0} to {1}" (.s "0%") (.s "100%"))
      (.s "alpha channel value"))

/-- The `0 to 1 as alpha channel value` message of the `CSSOpacity` branch. -/
def cssOpacityPlainMsg (name : String) : Msg :=
  Msg.t2 "{0} expects {1:c}" (Msg.t2 "the \"{0}\" {1}" (.s name) (.s "attribute"))
    (Msg.t2 "{0} as {1}" (Msg.t2 "{0} to {1}" (.s "0") (.s "1"))
      (.s "alpha channel value"))

/-- Claim C5 counterexample: the value `0.5px` carries a non-`%` unit, is
not an unsuffixed numeric at all, and is nevertheless accepted by the
`CSSOpacity` check — against the claim that without a `%` suffix exactly
the unsuffixed numerics in `[0,1]` are accepted. -/
theorem cssOpacity_unsuffixed_claim_false :
    attrCheck "opacity" "0.5px" false (some ⟨.tag "CSSOpacity"⟩) = none ∧
    (splitUnit "0.5px").unit ≠ "%" ∧ parseDec "0.5px" = none :=
  ⟨rfl, by decide, rfl⟩

/-- Claim C5 (amended): for a `CSSOpacity` spec (and a non-exempted name),
a `%` unit selects the `[0,100]` range check and any other (possibly empty)
unit selects the `[0,1]` range check, both applied to the numeric part
only — the non-`%` unit itself is ignored. -/
theorem cssOpacity_check (name value : String) (isCustomRule : Bool)
    (h1 : (!isCustomRule && dataAttrRe name) = false)
    (h2 : (!isCustomRule && ariaRoleRe name) = false) :
    ((splitUnit value).unit = "%" →
      (attrCheck name value isCustomRule (some ⟨.tag "CSSOpacity"⟩) = none ↔
        range (splitUnit value).num 0 100 = true)) ∧
    ((splitUnit value).unit ≠ "%" →
      (attrCheck name value isCustomRule (some ⟨.tag "CSSOpacity"⟩) = none ↔
        range (splitUnit value).num 0 1 = true)) := by
  rw [attrCheck_eq_of_not_exempt name value isCustomRule _ h1 h2]
  have hv : valueCheck name value ⟨.tag "CSSOpacity"⟩ =
      if (splitUnit value).unit = "%" then
        (if range (splitUnit value).num 0 100 then none
         else some (cssOpacityPercentMsg name))
      else
        (if range (splitUnit value).num 0 1 then none
         else some (cssOpacityPlainMsg name)) := by
    simp [valueCheck, cssOpacityPercentMsg, cssOpacityPlainMsg]
  rw [hv]
  constructor
  · intro hu
    rw [if_pos hu]
    cases hr : range (splitUnit value).num 0 100 <;> simp [hr]
  · intro hu
    rw [if_neg hu]
    cases hr : range (splitUnit value).num 0 1 <;> simp [hr]

/-- Witness for the amended C5 at the four concrete examples of the claim. -/
theorem cssOpacity_check_witness :
    attrCheck "opacity" "50%" false (some ⟨.tag "CSSOpacity"⟩) = none ∧
    ¬ attrCheck "opacity" "101%" false (some ⟨.tag "CSSOpacity"⟩) = none ∧
    attrCheck "opacity" "0.5" false (some ⟨.tag "CSSOpacity"⟩) = none ∧
    ¬ attrCheck "opacity" "1.1" false (some ⟨.tag "CSSOpacity"⟩) = none := by
  refine ⟨?_, ?_, ?_, ?_⟩
  · exact ((cssOpacity_check "opacity" "50%" false (by decide) (by decide)).1
      (by decide)).mpr (by decide)
  · intro hc
    have h := ((cssOpacity_check "opacity" "101%" false (by decide) (by decide)).1
      (by decide)).mp hc
    revert h
    decide
  · exact ((cssOpacity_check "opacity" "0.5" false (by decide) (by decide)).2
      (by decide)).mpr (by decide)
  · intro hc
    have h := ((cssOpacity_check "opacity" "1.1" false (by decide) (by decide)).2
      (by decide)).mp hc
    revert h
    decide

/-- Claim C3: the class-naming rule never emits a report for an attribute
token whose `isDynamicValue` flag is set — every report it produces is
scoped to a non-dynamic token, for every pattern matcher and document. -/
theorem classNaming_never_reports_dynamic (matchFn : String → String → Bool)
    (doc : List CElement) (r : Report) (hr : r ∈ classNamingVerify matchFn doc) :
    r.scope.isDynamicValue = false := by
  simp only [classNamingVerify, List.mem_flatMap] at hr
  obtain ⟨el, -, hr⟩ := hr
  rw [verifyElement] at hr
  split at hr
  · simp at hr
  · simp only [List.mem_flatMap] at hr
    obtain ⟨attr, -, hr⟩ := hr
    split at hr
    · simp at hr
    · rename_i hdyn
      simp only [List.mem_flatMap] at hr
      obtain ⟨className, -, hr⟩ := hr
      split at hr
      · rw [List.mem_singleton] at hr
        subst hr
        simpa using hdyn
      · simp at hr

/-- A one-element document for the C3 witness: a configured pattern, one
non-dynamic `class` token. -/
def c3Doc : List CElement :=
  [{ ruleValue := .str "foo", classTokens := [⟨false, "bar", none⟩] }]

/-- The report the C3 witness document produces. -/
def c3Report : Report :=
  { scope := ⟨false, "bar", none⟩
    message := Msg.t2 "{0} is unmatched with the below patterns: {1}"
      (Msg.t2 "the \"{0*}\" {1}" (.s "bar") (.s "class name")) (.s "\"foo\"")
    line := none
    col := none
    raw := none }

/-- Witness for C3: a concrete report emitted by the rule, whose scope is a
non-dynamic token. -/
theorem classNaming_never_reports_dynamic_witness :
    c3Report.scope.isDynamicValue = false :=
  classNaming_never_reports_dynamic (fun _ _ => false) c3Doc c3Report (by decide)

/-- Claim C10: a palpable, non-void element with zero child nodes — not
suppressed by the aria-busy option — is classified empty (the emptiness
test over an empty child list is vacuously true) and produces exactly one
report with the `should not be empty` message. -/
theorem palpable_empty_report (isPalpableElement isVoidElement : PElement → Bool)
    (el : PElement)
    (hp : isPalpableElement el = true) (hv : isVoidElement el = false)
    (hchild : el.childNodes = [])
    (hbusy : el.ignoreIfAriaBusy = false ∨ el.ariaBusy ≠ some "true") :
    palpableVerifyElement isPalpableElement isVoidElement el =
      [{ scope := el
         message := Msg.t2 "{0} should not {1}" (Msg.t1 "the {0}" (.s "element"))
           (.s "empty") }] := by
  have hb : (el.ignoreIfAriaBusy && decide (el.ariaBusy = some "true")) = false := by
    rcases hbusy with hb | hb <;> simp [hb]
  simp [palpableVerifyElement, hp, hv, hb, hchild]

/-- Witness for C10: a concrete childless element reported as empty. -/
theorem palpable_empty_report_witness :
    palpableVerifyElement (fun _ => true) (fun _ => false) ⟨true, none, []⟩ =
      [{ scope := ⟨true, none, []⟩
         message := Msg.t2 "{0} should not {1}" (Msg.t1 "the {0}" (.s "element"))
           (.s "empty") }] :=
  palpable_empty_report (fun _ => true) (fun _ => false) ⟨true, none, []⟩
    rfl rfl rfl (Or.inr (by decide))

end Markuplint
